import Mathlib

/-!
Shallow embedding of the Cosmos repository (tasks.py), an invoke-based
task file that bootstraps a development environment, clones and builds a
companion repository (Quark), and offers housekeeping tasks.

Conventions of the embedding:
- the process environment (os.environ) is a function `String → Option String`;
- the module global CURRENT_PYTHON_VERSION (the interpreter version read at
  startup) is passed explicitly as `currentPythonVersion`;
- filesystem facts a function consults (os.path.exists) are passed as
  booleans; commands a task issues (ctx.run, shutil.rmtree) are returned as
  traces instead of being executed;
- a Python exception is an `Except.error` carrying the exception text.

The task executor (the invoke library) is not part of this repository; its
scheduling of declared prerequisites is modelled from the spec where noted.
-/

namespace Cosmos

/-- Python string replace with the single-character pattern ".", as in
CURRENT_PYTHON_VERSION.replace(".", ""): every "." character of the string
is removed and the rest is kept in order. -/
def removeDots (s : String) : String :=
  String.mk (s.data.filter (fun c => c != '.'))

/-- get_venv_name from tasks.py: the venv directory name is the fixed text
~/.venv/sandbox_py followed by the startup interpreter version with "."
removed. The Python function takes no parameter: it reads the module global
CURRENT_PYTHON_VERSION, which is passed here explicitly. -/
def get_venv_name (currentPythonVersion : String) : String :=
  "~/.venv/sandbox_py" ++ removeDots currentPythonVersion

/-- is_venv_active from tasks.py: os.environ.get("VIRTUAL_ENV") is not None. -/
def is_venv_active (environ : String → Option String) : Bool :=
  (environ "VIRTUAL_ENV").isSome

/-- os.path.join of two components: the separator is the OS one
(os.name = "nt" means the Windows family). -/
def ospath_join (osName a b : String) : String :=
  a ++ (if osName == "nt" then "\\" else "/") ++ b

/-- get_activate_cmd from tasks.py: the shell command that sources the
activation script of the named environment; the script path convention
depends on the OS family. -/
def get_activate_cmd (currentPythonVersion osName : String) : String :=
  let venv_name := get_venv_name currentPythonVersion
  let activate_script := if osName != "nt" then "bin/activate" else "Scripts/activate"
  let activate_path := ospath_join osName venv_name activate_script
  "source " ++ activate_path

/-- Observable outcome of one call through the with_venv wrapper:
which activation command (if any) was applied as a scoped shell prelude,
whether the wrapped body ran, and the value the wrapper returned
(none models Python returning None). -/
structure WrapResult (β : Type) where
  activation : Option String
  bodyRan : Bool
  result : Option β
deriving Repr, DecidableEq

/-- with_venv from tasks.py. The wrapper body is exactly:
if not is_venv_active(): with ctx.prefix(get_activate_cmd(ctx)): return
func(ctx, ...). There is no else branch, so when a venv is already active
the wrapper falls through and returns None without calling func. -/
def with_venv {α β : Type} (func : α → β)
    (environ : String → Option String) (currentPythonVersion osName : String)
    (x : α) : WrapResult β :=
  if !(is_venv_active environ) then
    let activate_cmd := get_activate_cmd currentPythonVersion osName
    { activation := some activate_cmd, bodyRan := true, result := some (func x) }
  else
    { activation := none, bodyRan := false, result := none }

/-- A subproject entry of repositories.json (config["projects"]). -/
structure Project where
  name : String
deriving Repr, DecidableEq

/-- The possible states of repositories.json as load_config finds it:
absent, present but not decodable as JSON with a "projects" list, or
decodable with its list of project entries. -/
inductive ConfigFile where
  | missing
  | malformed
  | valid (projects : List Project)
deriving Repr, DecidableEq

/-- load_config from tasks.py: open repositories.json, json.load it and
return config["projects"]. A missing file raises FileNotFoundError and a
non-decodable one raises at the decode step; either exception propagates. -/
def load_config : ConfigFile → Except String (List Project)
  | ConfigFile.missing => Except.error "FileNotFoundError: repositories.json"
  | ConfigFile.malformed => Except.error "json.JSONDecodeError"
  | ConfigFile.valid ps => Except.ok ps

/-- One git command issued by group_commit, tagged with the directory
(ctx.cd scope) it runs in. -/
inductive GitCmd where
  | add (dir : String)
  | commit (dir : String) (message : String)
  | push (dir : String)
deriving Repr, DecidableEq

/-- group_commit from tasks.py: load the config, run git add, git commit -m,
git push in the main directory ".", then loop over the subprojects. The
loop header reads the name projects, but line 159 bound the config to the
name subprojects, so Python raises NameError (name projects is not defined)
right after the main-directory commands; no subproject command ever runs.
Returns (git commands issued, outcome). -/
def group_commit (cfg : ConfigFile) (m : String) :
    List GitCmd × Except String Unit :=
  match load_config cfg with
  | Except.error e => ([], Except.error e)
  | Except.ok _subprojects =>
      let cosmos_dir := "."
      let mainOps := [GitCmd.add cosmos_dir, GitCmd.commit cosmos_dir m,
        GitCmd.push cosmos_dir]
      (mainOps, Except.error "NameError: name projects is not defined")

/-- The clone command pull_quark issues when the Quark directory is absent. -/
def quark_clone_cmd : String := "git clone git@github.com:codes1gn/Quark.git"

/-- pull_quark from tasks.py: clone the Quark repository unless the Quark
directory already exists (os.path.exists("Quark")). Returns the commands
issued. -/
def pull_quark (quarkDirExists : Bool) : List String :=
  if !quarkDirExists then [quark_clone_cmd] else []

/-- One filesystem-affecting operation of the clean task: a direct
shutil.rmtree call, or a shell command through ctx.run. -/
inductive CleanOp where
  | rmtree (path : String)
  | run (cmd : String)
deriving Repr, DecidableEq

/-- The temp_files pattern list of the clean task. -/
def temp_files : List String := ["build", "dist", "*.egg-info", "__pycache__", "*.pyc"]

/-- clean from tasks.py: shutil.rmtree the venv directory only when
os.path.exists reports it present (so rmtree is never attempted on an
absent directory), then rm -rf each temp pattern. Returns the operations
performed. -/
def clean (currentPythonVersion : String) (venvDirExists : Bool) : List CleanOp :=
  let venv_name := get_venv_name currentPythonVersion
  (if venvDirExists then [CleanOp.rmtree venv_name] else [])
    ++ temp_files.map (fun pattern => CleanOp.run ("rm -rf " ++ pattern))

/-- The venv directory name create_env passes to python -m venv: the source
calls get_venv_name(), which ignores the python_version parameter of
create_env and uses the startup interpreter version. -/
def create_env_venv_name (currentPythonVersion _python_version : String) : String :=
  get_venv_name currentPythonVersion

/-- The single command the create_env task runs:
python{python_version} -m venv {venv_name}. -/
def create_env_cmd (currentPythonVersion python_version : String) : String :=
  "python" ++ python_version ++ " -m venv "
    ++ create_env_venv_name currentPythonVersion python_version

/-- The tasks declared in tasks.py. -/
inductive TaskName where
  | create_env
  | configure_poetry
  | install_deps
  | bootstrap
  | format
  | clean
  | group_commit
  | pull_quark
  | build_quark
  | test_quark
  | all
deriving Repr, DecidableEq

/-- The pre=[...] prerequisite lists of the task declarations in tasks.py,
in declared order. -/
def pre : TaskName → List TaskName
  | TaskName.configure_poetry => [TaskName.create_env]
  | TaskName.install_deps => [TaskName.create_env, TaskName.configure_poetry]
  | TaskName.bootstrap =>
      [TaskName.create_env, TaskName.configure_poetry, TaskName.install_deps]
  | _ => []

/-- Modelled from the spec: the task executor (the invoke library, not part
of this repository) invokes a task by running each of its declared
prerequisite tasks first, in declared order, then the task body; the trace
lists the tasks whose bodies execute. -/
def invoke1 (t : TaskName) : List TaskName := pre t ++ [t]

/-- Modelled from the spec: a run of several requested tasks invokes each in
turn with no memoization, so a prerequisite declared by two requested tasks
executes once per declaring task. -/
def runTasks (ts : List TaskName) : List TaskName := ts.flatMap invoke1

/-- The body of the all task in tasks.py calls bootstrap, pull_quark,
build_quark and test_quark in that order; each call is a task invocation.
Invoking all itself runs its (empty) prerequisite list, then this body,
then completes. -/
def all_run : List TaskName :=
  pre TaskName.all
    ++ (invoke1 TaskName.bootstrap ++ invoke1 TaskName.pull_quark
      ++ invoke1 TaskName.build_quark ++ invoke1 TaskName.test_quark)
    ++ [TaskName.all]

/-- A concrete process environment in which a virtual environment is
active: VIRTUAL_ENV is set. -/
def env_with_venv : String → Option String :=
  fun k => if k == "VIRTUAL_ENV" then some "/home/user/.venv/sandbox_py311" else none

/-- A concrete process environment in which VIRTUAL_ENV is set to the empty
string. -/
def env_empty_venv : String → Option String :=
  fun k => if k == "VIRTUAL_ENV" then some "" else none

/-- C1: with the virtual environment already active (VIRTUAL_ENV set), the
with_venv wrapper does not execute the wrapped body at all and returns None,
instead of executing the body directly and returning its result as the
claim states: the wrapper has no else branch. -/
theorem with_venv_active_skips_body :
    is_venv_active env_with_venv = true
      ∧ (with_venv (fun n : Nat => n + 1) env_with_venv "3.11" "posix" 41).bodyRan = false
      ∧ (with_venv (fun n : Nat => n + 1) env_with_venv "3.11" "posix" 41).result = none := by
  refine ⟨rfl, ?_, ?_⟩ <;> rfl

/-- C2: invoking the all task executes create_env, configure_poetry,
install_deps (bootstrap's full prerequisite chain), then bootstrap's empty
body, then pull_quark, build_quark and test_quark, in exactly that order
(executor semantics modelled from the spec). -/
theorem all_runs_full_chain_in_order :
    all_run = [TaskName.create_env, TaskName.configure_poetry, TaskName.install_deps,
      TaskName.bootstrap, TaskName.pull_quark, TaskName.build_quark,
      TaskName.test_quark, TaskName.all] := by
  rfl

/-- C3: with a well-formed configuration listing one subproject (Quark) and
the message "fix bug", group_commit issues only the three main-directory git
commands and then raises NameError on the undefined name projects: the
claimed per-subproject git commands are never issued. -/
theorem group_commit_raises_name_error :
    group_commit (ConfigFile.valid [{ name := "Quark" }]) "fix bug" =
      ([GitCmd.add ".", GitCmd.commit "." "fix bug", GitCmd.push "."],
        Except.error "NameError: name projects is not defined") := by
  rfl

/-- C4 counterexample: with the interpreter running 3.11 and the
create-environment override V = "3.8", the derived environment directory
name is ~/.venv/sandbox_py311, and V with "." removed (the text "38") does
not occur anywhere in it — the claim fails for the override. -/
theorem create_env_name_ignores_override :
    create_env_venv_name "3.11" "3.8" = "~/.venv/sandbox_py311"
      ∧ ¬ (removeDots "3.8").data <:+: (create_env_venv_name "3.11" "3.8").data := by
  exact ⟨rfl, by decide⟩

/-- C4 amended: the derived environment name embeds the startup interpreter
version (the only version the namer consults) with "." removed, under the
fixed prefix ~/.venv/sandbox_py which never contains a version; the
python_version override of create-environment has no effect on the name. -/
theorem get_venv_name_embeds_version :
    (∀ v : String, get_venv_name v = "~/.venv/sandbox_py" ++ removeDots v
      ∧ '.' ∉ (removeDots v).data)
    ∧ (∀ cur o1 o2 : String,
        create_env_venv_name cur o1 = create_env_venv_name cur o2)
    ∧ get_venv_name "3.11" = "~/.venv/sandbox_py311" := by
  refine ⟨fun v => ⟨rfl, ?_⟩, fun cur o1 o2 => rfl, rfl⟩
  simp [removeDots, List.mem_filter]

/-- C5: invoking bootstrap runs create_env, then configure_poetry, then
install_deps, each exactly once and in that order, before bootstrap's own
(empty) body (executor semantics modelled from the spec). -/
theorem bootstrap_runs_prereqs_in_order :
    invoke1 TaskName.bootstrap =
      [TaskName.create_env, TaskName.configure_poetry, TaskName.install_deps,
        TaskName.bootstrap]
    ∧ (invoke1 TaskName.bootstrap).count TaskName.create_env = 1
    ∧ (invoke1 TaskName.bootstrap).count TaskName.configure_poetry = 1
    ∧ (invoke1 TaskName.bootstrap).count TaskName.install_deps = 1 := by
  refine ⟨rfl, ?_, ?_, ?_⟩ <;> rfl

/-- C6: prerequisite execution is non-memoized: in any run, a task p
executes once per requested task declaring it as a prerequisite (plus once
per time p itself is requested); in particular a run of configure_poetry and
install_deps, which both declare create_env, executes create_env twice
(executor semantics modelled from the spec). -/
theorem prerequisites_not_memoized :
    (∀ (ts : List TaskName) (p : TaskName),
      (runTasks ts).count p = (ts.map (fun t => (pre t).count p)).sum + ts.count p)
    ∧ (runTasks [TaskName.configure_poetry, TaskName.install_deps]).count
        TaskName.create_env = 2 := by
  refine ⟨fun ts p => ?_, by rfl⟩
  induction ts with
  | nil => rfl
  | cons t ts ih =>
      simp [runTasks, invoke1, List.count_append, List.count_cons] at ih ⊢
      omega

/-- C7: pull_quark is idempotent with respect to cloning: when the Quark
directory already exists it issues no command at all, and the clone command
is issued exactly when the directory is absent. -/
theorem pull_quark_idempotent :
    pull_quark true = []
      ∧ ∀ quarkDirExists : Bool,
          quark_clone_cmd ∈ pull_quark quarkDirExists ↔ quarkDirExists = false := by
  refine ⟨rfl, fun b => ?_⟩
  cases b <;> simp [pull_quark]

/-- C8: when loading the configuration file fails (missing or malformed),
group_commit issues no git command at all and propagates that error. -/
theorem group_commit_error_path (cfg : ConfigFile) (m e : String)
    (h : load_config cfg = Except.error e) :
    (group_commit cfg m).1 = [] ∧ (group_commit cfg m).2 = Except.error e := by
  simp [group_commit, h]

/-- C8 witness: with repositories.json missing and the message "fix bug",
no git command is issued and the FileNotFoundError propagates. -/
theorem group_commit_error_path_witness :
    (group_commit ConfigFile.missing "fix bug").1 = []
      ∧ (group_commit ConfigFile.missing "fix bug").2 =
        Except.error "FileNotFoundError: repositories.json" :=
  group_commit_error_path ConfigFile.missing "fix bug"
    "FileNotFoundError: repositories.json" rfl

/-- C9: clean removes the virtual-environment directory exactly when it
exists, and when it is absent no rmtree operation is attempted at all (so
the removal raises no error on its account). -/
theorem clean_removes_venv_iff_present (currentPythonVersion : String) :
    (CleanOp.rmtree (get_venv_name currentPythonVersion)
        ∈ clean currentPythonVersion true)
      ∧ ∀ p : String, CleanOp.rmtree p ∉ clean currentPythonVersion false := by
  constructor
  · simp [clean]
  · intro p
    simp [clean, temp_files]

/-- C10: is_venv_active reports active exactly when VIRTUAL_ENV is present
in the process environment, whatever its value — including the empty
string — and reports inactive exactly when the variable is unset. -/
theorem is_venv_active_spec :
    (∀ environ : String → Option String,
      is_venv_active environ = true ↔ ∃ v, environ "VIRTUAL_ENV" = some v)
    ∧ (∀ environ : String → Option String,
      is_venv_active environ = false ↔ environ "VIRTUAL_ENV" = none)
    ∧ is_venv_active env_empty_venv = true := by
  refine ⟨fun environ => ?_, fun environ => ?_, rfl⟩
  · cases h : environ "VIRTUAL_ENV" <;> simp [is_venv_active, h]
  · cases h : environ "VIRTUAL_ENV" <;> simp [is_venv_active, h]

end Cosmos
